import Mathlib

/-!
Shallow embedding of the chat-proxy serverless function of this repository
(src/api/chat.js, and the second copy src/unnamed/part_000).

Strings are modelled as lists of characters (`Str`), the JavaScript string
operations used by the source (`toLowerCase`, `trim`, `split(' ')`,
`includes`, `startsWith`, `slice`) as executable functions over `Str`.
The request handler is modelled as a pure function of the request, the
presence of the provider credential, and the outcome of the single
outbound fetch; its result records both the upstream request it issued
(if any) and the HTTP-style response returned to the caller.
-/

abbrev Str := List Char

/-- JavaScript `s.toLowerCase()` (at the ASCII level of the source's data). -/
def toLowerStr (s : Str) : Str := s.map Char.toLower

/-- JavaScript `s.trim()`: drop leading and trailing whitespace. -/
def trimStr (s : Str) : Str :=
  ((s.dropWhile Char.isWhitespace).reverse.dropWhile Char.isWhitespace).reverse

/-- JavaScript `s.split(' ')`: split on single spaces; consecutive spaces
produce empty tokens, and the empty string yields one empty token. -/
def splitSpace (s : Str) : List Str := s.splitOn ' '

/-- JavaScript `s.includes(pat)`: `pat` occurs as a contiguous substring. -/
def containsSub : Str → Str → Bool
  | [], pat => pat.isEmpty
  | c :: t, pat => pat.isPrefixOf (c :: t) || containsSub t pat

/-- The three complexity tiers of `detectComplexity`. -/
inductive Tier
  | simple
  | medium
  | complex
deriving DecidableEq, Repr

/-- A turn of the `history` array: `{sender, text}`. -/
structure HistoryTurn where
  sender : Str
  text : Str
deriving DecidableEq, Repr

/-- The `simplePatterns` array of src/api/chat.js lines 61-64. -/
def simplePatterns : List Str :=
  ["hi".toList, "hello".toList, "hey".toList, "thanks".toList, "thank you".toList,
   "ok".toList, "okay".toList, "yes".toList, "no".toList, "sure".toList,
   "great".toList, "awesome".toList, "cool".toList, "got it".toList]

/-- The `complexPatterns` array of src/api/chat.js lines 70-75. -/
def complexPatterns : List Str :=
  ["integrate".toList, "api".toList, "technical".toList, "architecture".toList,
   "how exactly".toList, "explain in detail".toList, "step by step".toList,
   "compare".toList, "difference between".toList, "custom".toList,
   "specific".toList, "enterprise".toList, "compliance".toList, "gdpr".toList,
   "soc".toList, "multiple".toList, "several".toList, "and also".toList,
   "also want".toList, "in addition".toList]

/-- `detectComplexity` of src/api/chat.js lines 55-82. -/
def detectComplexity (message : Str) (history : List HistoryTurn) : Tier :=
  let text := trimStr (toLowerStr message)
  let wordCount := (splitSpace message).length
  let historyLen := history.length
  let isGreeting := simplePatterns.any fun p => text == p || (p ++ [' ']).isPrefixOf text
  if isGreeting || decide (wordCount ≤ 4) then Tier.simple
  else
    let isComplex := (complexPatterns.any fun p => containsSub text p) || decide (25 < wordCount)
    if isComplex || decide (8 < historyLen) then Tier.complex
    else Tier.medium

/-- The `MODELS` table of src/api/chat.js lines 7-11: every tier maps to the
same identifier. -/
def MODELS : Tier → Str
  | Tier.simple => "x-ai/grok-4.1-fast".toList
  | Tier.medium => "x-ai/grok-4.1-fast".toList
  | Tier.complex => "x-ai/grok-4.1-fast".toList

/-- The `SYSTEM_PROMPT` template literal of src/api/chat.js lines 13-52. -/
def SYSTEM_PROMPT : Str :=
  "You are Emily, a customer service representative for Valure — an AI automation agency that helps home service contractors eliminate repetitive work and recover lost revenue through custom-built AI systems.

Your personality:
- Warm, conversational, and genuinely helpful — like a knowledgeable colleague, not a scripted bot
- Business oriented and results focused — you care about solving real problems, not just answering questions
- Experienced — you give specific, informed answers, never vague or generic ones
- Honest — if you don't know something, you say so and direct them to the team
- Concise — 2 to 3 sentences per response unless the question genuinely requires more
- Never use emoji of any kind
- Never start a response with \"Great question\" or \"Absolutely\" or similar hollow openers
- Always acknowledge what the visitor said before answering — show you're actually listening
- End most responses with one natural follow up question to keep the conversation going

How you approach contractors:
- These are busy tradespeople — plumbers, electricians, HVAC techs — not corporate executives
- They're often stressed, running lean, and losing money to problems they haven't had time to fix
- Acknowledge their pain specifically before moving to the solution
- Speak plainly — no jargon, no buzzwords, no fluff
- Be direct about what Valure does and what it costs — contractors respect straight talk

Key facts about Valure — know these cold:
- We build custom AI automation systems, not off-the-shelf tools or templates
- Core services: missed call text-back, appointment confirmations, review requests, lead follow-up sequences, AI workflow automation, AI agents, custom integrations, data and reporting automation
- Missed call text-back: when a call goes unanswered, AI sends a text within seconds keeping the lead warm before they call a competitor
- Pricing: project builds start from $8,000, managed retainers start from $3,500 per month
- Free automation audit: 30 minute call, zero pressure, zero cost — we map their workflows and show them exactly what automation is worth to their business
- Timeline: first automation live within 14 days of kickoff, simple workflows in as little as 7 days
- No contracts — cancel anytime
- Data is encrypted in transit and at rest, never shared with third parties, GDPR compliant
- We respond to all inquiries within 2 business hours Monday through Friday
- Target clients: home service contractors doing $500K to $50M in revenue

How to handle common situations:
- Visitor asks about cost: give the real numbers, then explain what they get for it
- Visitor mentions missing calls: acknowledge how costly that is specifically, then explain the text-back system
- Visitor seems hesitant: don't push — acknowledge their hesitation and offer the free audit as a no risk way to get clarity
- Visitor asks something outside your knowledge: say \"That's a good one for our team — they can give you a straight answer. Fill out the contact form and we'll get back to you within 2 business hours.\"
- Visitor is ready to move forward: direct them clearly to the contact form below

Never fabricate pricing, timelines, or promises not listed above. When in doubt, direct to the team.".toList

/-- Roles of the messages sent upstream. -/
inductive Role
  | system
  | user
  | assistant
deriving DecidableEq, Repr

/-- One element of the `messages` array sent upstream. -/
structure UpstreamMessage where
  role : Role
  content : Str
deriving DecidableEq, Repr

/-- The JSON body of the outbound fetch (src/api/chat.js lines 123-132). -/
structure UpstreamRequest where
  model : Str
  messages : List UpstreamMessage
  maxTokens : Nat
  temperature : ℚ
deriving DecidableEq

/-- The `message` field of the request body as the validation of
src/api/chat.js line 97 sees it: absent (`undefined`), some non-string
value, or a string. `!message || typeof message !== 'string'` rejects
`absent` and `nonString` outright, and rejects a string exactly when it is
empty (the empty string is falsy). -/
inductive BodyMessage
  | absent
  | nonString
  | str (s : Str)
deriving DecidableEq, Repr

/-- The request body: `{ message, history }`, `history` optional. -/
structure RequestBody where
  message : BodyMessage
  history : Option (List HistoryTurn)
deriving DecidableEq, Repr

/-- An inbound request: method plus parsed body. -/
structure Request where
  method : Str
  body : RequestBody
deriving DecidableEq, Repr

/-- The outcome of the single outbound fetch, as the handler observes it:
the fetch itself throws, or a response arrives with an `ok` flag, an error
text (read only when `ok` is false), and the optional extractable reply
`data.choices?.[0]?.message?.content`. -/
inductive FetchOutcome
  | fetchError
  | response (ok : Bool) (errText : Str) (reply : Option Str)
deriving DecidableEq, Repr

/-- A response body returned to the caller: `{error}` or
`{reply, model, complexity}`. -/
inductive RespBody
  | errorMsg (msg : Str)
  | success (reply : Str) (model : Str) (complexity : Tier)
deriving DecidableEq, Repr

/-- An HTTP-style result: status code and JSON body. -/
structure HttpResult where
  status : Nat
  body : RespBody
deriving DecidableEq, Repr

/-- What one invocation of the handler did: returned without calling
upstream, or issued exactly one upstream request and returned. -/
inductive HandlerOutcome
  | noCall (result : HttpResult)
  | call (request : UpstreamRequest) (result : HttpResult)
deriving DecidableEq

def POST : Str := "POST".toList

def METHOD_NOT_ALLOWED : Str := "Method not allowed".toList

def API_KEY_NOT_CONFIGURED : Str := "API key not configured".toList

def INVALID_MESSAGE : Str := "Invalid message".toList

def SOMETHING_WRONG : Str := "Something went wrong. Please try again.".toList

/-- The local `sanitized` of src/api/chat.js line 102: `message.slice(0, 500)`. -/
def sanitizedOf (message : Str) : Str := message.take 500

/-- The local `chatHistory` of src/api/chat.js lines 109-112:
`history.slice(-6)` mapped to upstream messages. -/
def chatHistoryOf (history : List HistoryTurn) : List UpstreamMessage :=
  (history.drop (history.length - 6)).map fun m =>
    UpstreamMessage.mk (if m.sender == "user".toList then Role.user else Role.assistant) m.text

/-- The outbound request body of src/api/chat.js lines 123-132. -/
def upstreamRequestOf (message : Str) (history : List HistoryTurn) : UpstreamRequest :=
  { model := MODELS (detectComplexity (sanitizedOf message) history),
    messages := UpstreamMessage.mk Role.system SYSTEM_PROMPT :: chatHistoryOf history
      ++ [UpstreamMessage.mk Role.user (sanitizedOf message)],
    maxTokens := 300,
    temperature := 7/10 }

/-- The try/catch of src/api/chat.js lines 114-157: the single fetch and the
mapping of its outcome to the result. A thrown fetch, a non-ok response, a
missing reply and an empty (falsy) reply all land in the catch, which
returns the fixed 500 body; a non-empty reply returns 200 with
`{reply, model, complexity}`. -/
def callUpstream (upReq : UpstreamRequest) (complexity : Tier) (upstream : FetchOutcome) :
    HandlerOutcome :=
  match upstream with
  | FetchOutcome.fetchError => HandlerOutcome.call upReq ⟨500, RespBody.errorMsg SOMETHING_WRONG⟩
  | FetchOutcome.response ok _ reply =>
    if ok = false then HandlerOutcome.call upReq ⟨500, RespBody.errorMsg SOMETHING_WRONG⟩
    else
      match reply with
      | none => HandlerOutcome.call upReq ⟨500, RespBody.errorMsg SOMETHING_WRONG⟩
      | some r =>
        if r.isEmpty then HandlerOutcome.call upReq ⟨500, RespBody.errorMsg SOMETHING_WRONG⟩
        else HandlerOutcome.call upReq ⟨200, RespBody.success r upReq.model complexity⟩

/-- The handler of src/api/chat.js lines 84-158. -/
def handler (req : Request) (credentialPresent : Bool) (upstream : FetchOutcome) :
    HandlerOutcome :=
  if req.method ≠ POST then
    HandlerOutcome.noCall ⟨405, RespBody.errorMsg METHOD_NOT_ALLOWED⟩
  else if credentialPresent = false then
    HandlerOutcome.noCall ⟨500, RespBody.errorMsg API_KEY_NOT_CONFIGURED⟩
  else
    match req.body.message with
    | BodyMessage.str s =>
      if s.isEmpty then HandlerOutcome.noCall ⟨400, RespBody.errorMsg INVALID_MESSAGE⟩
      else
        callUpstream (upstreamRequestOf s (req.body.history.getD []))
          (detectComplexity (sanitizedOf s) (req.body.history.getD [])) upstream
    | _ => HandlerOutcome.noCall ⟨400, RespBody.errorMsg INVALID_MESSAGE⟩

/-- The result part of an outcome. -/
def HandlerOutcome.result : HandlerOutcome → HttpResult
  | HandlerOutcome.noCall r => r
  | HandlerOutcome.call _ r => r

/-- Whether an upstream call was issued. -/
def HandlerOutcome.isCall : HandlerOutcome → Bool
  | HandlerOutcome.noCall _ => false
  | HandlerOutcome.call _ _ => true

/-- The `messages` array sent upstream, when a call was issued. -/
def HandlerOutcome.sentMessages : HandlerOutcome → Option (List UpstreamMessage)
  | HandlerOutcome.noCall _ => none
  | HandlerOutcome.call q _ => some q.messages

/-- The `model` field sent upstream, when a call was issued. -/
def HandlerOutcome.sentModel : HandlerOutcome → Option Str
  | HandlerOutcome.noCall _ => none
  | HandlerOutcome.call q _ => some q.model

namespace V2

/-- The `MODELS` table of src/unnamed/part_000 lines 7-11. -/
def MODELS : Tier → Str
  | Tier.simple => "meta-llama/llama-3.2-3b-instruct:free".toList
  | Tier.medium => "mistralai/mistral-7b-instruct:free".toList
  | Tier.complex => "anthropic/claude-3-haiku-20240307".toList

/-- The `simplePatterns` array of src/unnamed/part_000 lines 46-49. -/
def simplePatterns : List Str :=
  ["hi".toList, "hello".toList, "hey".toList, "thanks".toList, "thank you".toList,
   "ok".toList, "okay".toList, "yes".toList, "no".toList, "sure".toList,
   "great".toList, "awesome".toList, "cool".toList, "got it".toList]

/-- The `complexPatterns` array of src/unnamed/part_000 lines 55-60. -/
def complexPatterns : List Str :=
  ["integrate".toList, "api".toList, "technical".toList, "architecture".toList,
   "how exactly".toList, "explain in detail".toList, "step by step".toList,
   "compare".toList, "difference between".toList, "custom".toList,
   "specific".toList, "enterprise".toList, "compliance".toList, "gdpr".toList,
   "soc".toList, "multiple".toList, "several".toList, "and also".toList,
   "also want".toList, "in addition".toList]

/-- `detectComplexity` of src/unnamed/part_000 lines 40-67. -/
def detectComplexity (message : Str) (history : List HistoryTurn) : Tier :=
  let text := trimStr (toLowerStr message)
  let wordCount := (splitSpace message).length
  let historyLen := history.length
  let isGreeting := V2.simplePatterns.any fun p => text == p || (p ++ [' ']).isPrefixOf text
  if isGreeting || decide (wordCount ≤ 4) then Tier.simple
  else
    let isComplex := (V2.complexPatterns.any fun p => containsSub text p) || decide (25 < wordCount)
    if isComplex || decide (8 < historyLen) then Tier.complex
    else Tier.medium

end V2

/-- The substring `'gdpr'` of `complexPatterns`. -/
def gdprPat : Str := "gdpr".toList

/-- Nine prior turns, for exercising the history-length rule. -/
def hist9 : List HistoryTurn := List.replicate 9 (HistoryTurn.mk "user".toList "hello".toList)

/-- Ten prior turns with varied senders, for exercising the windowing. -/
def hist10 : List HistoryTurn :=
  [HistoryTurn.mk "user".toList "one".toList,
   HistoryTurn.mk "assistant".toList "two".toList,
   HistoryTurn.mk "user".toList "three".toList,
   HistoryTurn.mk "bot".toList "four".toList,
   HistoryTurn.mk "user".toList "five".toList,
   HistoryTurn.mk "assistant".toList "six".toList,
   HistoryTurn.mk "user".toList "seven".toList,
   HistoryTurn.mk "system".toList "eight".toList,
   HistoryTurn.mk "user".toList "nine".toList,
   HistoryTurn.mk "assistant".toList "ten".toList]

/-- A greeting-prefixed message holding two complex keywords and 8 words. -/
def msgGreetingComplex : Str := "hi how do we integrate the api today".toList

/-- A neutral message: 6 words, no greeting prefix, no complex keyword. -/
def msgNeutral : Str := "please tell me about pricing options".toList

/-- A greeting-prefixed message holding `gdpr` and 5 words. -/
def msgGdprGreeting : Str := "hi gdpr gdpr gdpr gdpr".toList

/-- A non-greeting message holding `gdpr` and 6 words. -/
def msgGdpr : Str := "does valure handle gdpr rules properly".toList

/-- A plain valid message. -/
def msgValid : Str := "hello there my good friend".toList

/-- A valid request carrying `msgValid` and no history. -/
def reqValid : Request := Request.mk POST (RequestBody.mk (BodyMessage.str msgValid) none)

/-- A message of 600 characters. -/
def msg600 : Str := List.replicate 600 'a'

/-- `List.isPrefixOf` spelt out: a prefix is what some suffix completes. -/
lemma isPrefixOf_iff : ∀ p s : Str, p.isPrefixOf s = true ↔ ∃ t, s = p ++ t
  | [], s => by simp [List.isPrefixOf]
  | a :: p, [] => by simp [List.isPrefixOf]
  | a :: p, b :: s => by
    simp only [List.isPrefixOf, Bool.and_eq_true, beq_iff_eq]
    constructor
    · rintro ⟨rfl, h⟩
      obtain ⟨t, rfl⟩ := (isPrefixOf_iff p s).mp h
      exact ⟨t, rfl⟩
    · rintro ⟨t, ht⟩
      injection ht with h1 h2
      exact ⟨h1.symm, (isPrefixOf_iff p s).mpr ⟨t, h2⟩⟩

/-- `containsSub` spelt out: an occurrence splits the string in three. -/
lemma containsSub_iff : ∀ s pat : Str, containsSub s pat = true ↔ ∃ a b, s = a ++ pat ++ b
  | [], pat => by
    simp only [containsSub, List.isEmpty_iff]
    constructor
    · rintro rfl
      exact ⟨[], [], rfl⟩
    · rintro ⟨a, b, h⟩
      rcases a with _ | ⟨x, a⟩
      · rcases pat with _ | ⟨y, pat⟩
        · rfl
        · exact absurd h (by simp)
      · exact absurd h (by simp)
  | c :: t, pat => by
    simp only [containsSub, Bool.or_eq_true, isPrefixOf_iff pat (c :: t), containsSub_iff t pat]
    constructor
    · rintro (⟨u, hu⟩ | ⟨a, b, rfl⟩)
      · exact ⟨[], u, by simpa using hu⟩
      · exact ⟨c :: a, b, rfl⟩
    · rintro ⟨a, b, h⟩
      rcases a with _ | ⟨x, a⟩
      · exact Or.inl ⟨b, by simpa using h⟩
      · injection h with h1 h2
        exact Or.inr ⟨a, b, h2⟩

/-- Dropping leading whitespace keeps every occurrence of a nonempty
whitespace-free pattern. -/
lemma containsSub_dropWhile (s pat : Str) (hne : pat ≠ [])
    (hws : ∀ c ∈ pat, c.isWhitespace = false)
    (h : containsSub s pat = true) :
    containsSub (s.dropWhile Char.isWhitespace) pat = true := by
  induction s with
  | nil => simpa using h
  | cons c t ih =>
    rw [List.dropWhile_cons]
    have h' : (pat.isPrefixOf (c :: t) || containsSub t pat) = true := h
    by_cases hc : Char.isWhitespace c
    · rw [if_pos hc]
      rcases Bool.or_eq_true _ _ |>.mp h' with hp | hrec
      · obtain ⟨u, hu⟩ := (isPrefixOf_iff pat (c :: t)).mp hp
        rcases pat with _ | ⟨d, pat'⟩
        · exact absurd rfl hne
        · injection hu with h1 h2
          have := hws d (by simp)
          rw [← h1] at this
          rw [this] at hc
          exact absurd hc (by simp)
      · exact ih hrec
    · rw [if_neg hc]
      exact h

/-- `containsSub` transfers along reversal. -/
lemma containsSub_reverse (s pat : Str) (h : containsSub s pat = true) :
    containsSub s.reverse pat.reverse = true := by
  rw [containsSub_iff] at h ⊢
  obtain ⟨a, b, rfl⟩ := h
  exact ⟨b.reverse, a.reverse, by simp⟩

/-- Trimming keeps every occurrence of a nonempty whitespace-free pattern. -/
lemma containsSub_trimStr (s pat : Str) (hne : pat ≠ [])
    (hws : ∀ c ∈ pat, c.isWhitespace = false)
    (h : containsSub s pat = true) :
    containsSub (trimStr s) pat = true := by
  have h1 := containsSub_dropWhile s pat hne hws h
  have h2 := containsSub_reverse _ pat h1
  have h3 := containsSub_dropWhile _ _ (by simpa using hne)
    (by intro c hc; exact hws c (by simpa using hc)) h2
  have h4 := containsSub_reverse _ _ h3
  simpa [trimStr] using h4

/-- Every tier looks up the same model identifier. -/
lemma models_all_eq : ∀ t : Tier, MODELS t = "x-ai/grok-4.1-fast".toList
  | Tier.simple => rfl
  | Tier.medium => rfl
  | Tier.complex => rfl

/-- Mapped history turns never carry the system role. -/
lemma countP_system_chatHistory (l : List HistoryTurn) :
    ((chatHistoryOf l).countP fun m => m.role == Role.system) = 0 := by
  rw [List.countP_eq_zero]
  intro m hm
  simp only [chatHistoryOf, List.mem_map] at hm
  obtain ⟨a, _, rfl⟩ := hm
  simp only [beq_iff_eq]
  split <;> simp

/-- Every branch of the fetch handling issues the call it was given. -/
lemma callUpstream_isCall (q : UpstreamRequest) (c : Tier) (up : FetchOutcome) :
    (callUpstream q c up).isCall = true := by
  unfold callUpstream
  repeat first | rfl | split

/-- Every branch of the fetch handling sends the same `messages` array. -/
lemma callUpstream_sentMessages (q : UpstreamRequest) (c : Tier) (up : FetchOutcome) :
    (callUpstream q c up).sentMessages = some q.messages := by
  unfold callUpstream
  repeat first | rfl | split

/-- Every branch of the fetch handling sends the same `model`. -/
lemma callUpstream_sentModel (q : UpstreamRequest) (c : Tier) (up : FetchOutcome) :
    (callUpstream q c up).sentModel = some q.model := by
  unfold callUpstream
  repeat first | rfl | split

/-- A 200 response only arises from the success branch, echoing the model of
the issued request and the computed tier. -/
lemma callUpstream_success (q' : UpstreamRequest) (c : Tier) (up : FetchOutcome)
    (q : UpstreamRequest) (rep m : Str) (tc : Tier)
    (h : callUpstream q' c up
      = HandlerOutcome.call q (HttpResult.mk 200 (RespBody.success rep m tc))) :
    m = q'.model ∧ tc = c ∧ q = q' := by
  unfold callUpstream at h
  split at h
  · simp at h
  · split at h
    · simp at h
    · split at h
      · simp at h
      · split at h
        · simp at h
        · simp only [HandlerOutcome.call.injEq, HttpResult.mk.injEq,
            RespBody.success.injEq] at h
          exact ⟨h.2.2.2.1.symm, h.2.2.2.2.symm, h.1.symm⟩

/-- Whenever the handler issued a call, the request held a non-empty string
message and the outcome is the fetch handling applied to the assembled
upstream request. -/
lemma handler_call_shape (req : Request) (key : Bool) (up : FetchOutcome)
    (h : (handler req key up).isCall = true) :
    ∃ s : Str, s ≠ [] ∧ req.body.message = BodyMessage.str s ∧
      handler req key up = callUpstream (upstreamRequestOf s (req.body.history.getD []))
        (detectComplexity (sanitizedOf s) (req.body.history.getD [])) up := by
  obtain ⟨m, bmsg, hist⟩ := req
  by_cases hm : m = POST
  · subst hm
    cases key with
    | false =>
      have e : handler ⟨POST, bmsg, hist⟩ false up
          = HandlerOutcome.noCall ⟨500, RespBody.errorMsg API_KEY_NOT_CONFIGURED⟩ := rfl
      rw [e] at h
      exact Bool.noConfusion h
    | true =>
      cases bmsg with
      | absent =>
        have e : handler ⟨POST, BodyMessage.absent, hist⟩ true up
            = HandlerOutcome.noCall ⟨400, RespBody.errorMsg INVALID_MESSAGE⟩ := rfl
        rw [e] at h
        exact Bool.noConfusion h
      | nonString =>
        have e : handler ⟨POST, BodyMessage.nonString, hist⟩ true up
            = HandlerOutcome.noCall ⟨400, RespBody.errorMsg INVALID_MESSAGE⟩ := rfl
        rw [e] at h
        exact Bool.noConfusion h
      | str s =>
        rcases s with _ | ⟨c, t⟩
        · have e : handler ⟨POST, BodyMessage.str [], hist⟩ true up
              = HandlerOutcome.noCall ⟨400, RespBody.errorMsg INVALID_MESSAGE⟩ := rfl
          rw [e] at h
          exact Bool.noConfusion h
        · exact ⟨c :: t, by simp, rfl, rfl⟩
  · have e : handler ⟨m, bmsg, hist⟩ key up
        = HandlerOutcome.noCall ⟨405, RespBody.errorMsg METHOD_NOT_ALLOWED⟩ := by
      unfold handler
      split
      · rfl
      · rename_i hcond
        exact absurd hm (by simpa using hcond)
    rw [e] at h
    exact Bool.noConfusion h

/-- C2: for every message and every history, the classifier returns `simple`
whenever the normalized (lower-cased, trimmed) text equals one of the fixed
greeting/acknowledgement tokens or starts with one of them followed by a
space, or the word count of the single-space split (empty tokens counted) is
at most 4 — regardless of history length and of any complex substring,
because the simple check is evaluated first. -/
theorem simple_check_first (message : Str) (history : List HistoryTurn)
    (h : (simplePatterns.any fun p => trimStr (toLowerStr message) == p ||
            (p ++ [' ']).isPrefixOf (trimStr (toLowerStr message))) = true
       ∨ (splitSpace message).length ≤ 4) :
    detectComplexity message history = Tier.simple := by
  have hcond : ((simplePatterns.any fun p => trimStr (toLowerStr message) == p ||
      (p ++ [' ']).isPrefixOf (trimStr (toLowerStr message))) ||
      decide ((splitSpace message).length ≤ 4)) = true := by
    rcases h with h | h
    · exact Bool.or_eq_true _ _ |>.mpr (Or.inl h)
    · exact Bool.or_eq_true _ _ |>.mpr (Or.inr (decide_eq_true h))
  unfold detectComplexity
  rw [if_pos hcond]

/-- C2 witness: a message starting with a greeting token and holding the
complex keywords `integrate` and `api`, with 8 words and 9 prior turns, is
still classified `simple`. -/
theorem simple_check_first_witness :
    detectComplexity msgGreetingComplex hist9 = Tier.simple :=
  simple_check_first msgGreetingComplex hist9 (Or.inl (by decide))

/-- C3 as frozen is false at `"hi gdpr gdpr gdpr gdpr"` with empty history:
the message contains `gdpr` (case-insensitively) and has 5 words, yet the
classifier returns `simple`, not `complex`, because the greeting prefix
`"hi "` fires first. -/
theorem gdpr_claim_counterexample :
    containsSub (toLowerStr msgGdprGreeting) gdprPat = true ∧
    4 < (splitSpace msgGdprGreeting).length ∧
    detectComplexity msgGdprGreeting [] = Tier.simple ∧
    detectComplexity msgGdprGreeting [] ≠ Tier.complex := by decide

/-- C3 amended: for every message whose lower-cased text contains `gdpr`,
whose word count exceeds 4, and whose normalized text neither equals a
greeting token nor starts with one followed by a space, the classifier
returns `complex`, for every history. -/
theorem gdpr_long_message_complex (message : Str) (history : List HistoryTurn)
    (hg : containsSub (toLowerStr message) gdprPat = true)
    (hw : 4 < (splitSpace message).length)
    (hng : (simplePatterns.any fun p => trimStr (toLowerStr message) == p ||
             (p ++ [' ']).isPrefixOf (trimStr (toLowerStr message))) = false) :
    detectComplexity message history = Tier.complex := by
  have htext : containsSub (trimStr (toLowerStr message)) gdprPat = true :=
    containsSub_trimStr _ _ (by decide) (by decide) hg
  have hany : (complexPatterns.any fun p =>
      containsSub (trimStr (toLowerStr message)) p) = true :=
    List.any_eq_true.mpr ⟨gdprPat, by decide, htext⟩
  unfold detectComplexity
  rw [if_neg, if_pos]
  · exact Bool.or_eq_true _ _ |>.mpr
      (Or.inl (Bool.or_eq_true _ _ |>.mpr (Or.inl hany)))
  · intro hc
    rcases Bool.or_eq_true _ _ |>.mp hc with h | h
    · rw [hng] at h
      exact Bool.noConfusion h
    · have := of_decide_eq_true h
      omega

/-- C3 amended witness: a 6-word non-greeting message containing `gdpr` is
classified `complex` with empty history. -/
theorem gdpr_long_message_complex_witness :
    detectComplexity msgGdpr [] = Tier.complex :=
  gdpr_long_message_complex msgGdpr [] (by decide) (by decide) (by decide)

/-- C7: for every history longer than 8 turns and every message matching
neither the simple rule (not a greeting, word count at least 5) nor the
complex keyword and length rules (no complex substring, word count at most
25), the classifier returns `complex`: the history-length rule overrides the
default `medium`. -/
theorem history_rule_overrides_medium (message : Str) (history : List HistoryTurn)
    (hng : (simplePatterns.any fun p => trimStr (toLowerStr message) == p ||
             (p ++ [' ']).isPrefixOf (trimStr (toLowerStr message))) = false)
    (hw1 : 5 ≤ (splitSpace message).length)
    (hw2 : (splitSpace message).length ≤ 25)
    (hk : (complexPatterns.any fun p =>
            containsSub (trimStr (toLowerStr message)) p) = false)
    (hh : 8 < history.length) :
    detectComplexity message history = Tier.complex := by
  unfold detectComplexity
  rw [if_neg, if_pos]
  · exact Bool.or_eq_true _ _ |>.mpr (Or.inr (decide_eq_true hh))
  · intro hc
    rcases Bool.or_eq_true _ _ |>.mp hc with h | h
    · rw [hng] at h
      exact Bool.noConfusion h
    · have := of_decide_eq_true h
      omega

/-- C7 witness: a neutral 6-word message with 9 prior turns is classified
`complex`, while the same message with empty history is `medium`. -/
theorem history_rule_overrides_medium_witness :
    detectComplexity msgNeutral hist9 = Tier.complex ∧
    detectComplexity msgNeutral [] = Tier.medium :=
  ⟨history_rule_overrides_medium msgNeutral hist9 (by decide) (by decide)
     (by decide) (by decide) (by decide),
   by decide⟩

/-- C5: failure checks happen in fixed order — every non-POST request gets
status 405 `Method not allowed` without an upstream call, whatever the
credential and body; every POST request without the credential gets status
500 `API key not configured` without an upstream call and before the body
is inspected, so even a malformed body yields 500, not 400. -/
theorem method_then_key_checks :
    (∀ (req : Request) (key : Bool) (up : FetchOutcome), req.method ≠ POST →
       handler req key up
         = HandlerOutcome.noCall ⟨405, RespBody.errorMsg METHOD_NOT_ALLOWED⟩) ∧
    (∀ (body : RequestBody) (up : FetchOutcome),
       handler ⟨POST, body⟩ false up
         = HandlerOutcome.noCall ⟨500, RespBody.errorMsg API_KEY_NOT_CONFIGURED⟩) := by
  constructor
  · intro req key up hm
    unfold handler
    split
    · rfl
    · rename_i hcond
      exact absurd hm hcond
  · intro body up
    rfl

/-- C5 witness: a GET request with credential and valid body gets 405; a
POST request without credential and with a non-string message gets 500 `API
key not configured`, not 400. -/
theorem method_then_key_checks_witness :
    handler ⟨"GET".toList, RequestBody.mk (BodyMessage.str msgValid) none⟩ true
        FetchOutcome.fetchError
      = HandlerOutcome.noCall ⟨405, RespBody.errorMsg METHOD_NOT_ALLOWED⟩ ∧
    handler ⟨POST, RequestBody.mk BodyMessage.nonString none⟩ false
        FetchOutcome.fetchError
      = HandlerOutcome.noCall ⟨500, RespBody.errorMsg API_KEY_NOT_CONFIGURED⟩ :=
  ⟨method_then_key_checks.1 _ true FetchOutcome.fetchError (by decide),
   method_then_key_checks.2 _ FetchOutcome.fetchError⟩

/-- C8 as frozen is false at the empty string: `""` is present and is a
string, yet the handler returns 400 `Invalid message` instead of continuing,
because the empty string is falsy in `!message`. -/
theorem empty_message_rejected_counterexample :
    handler ⟨POST, RequestBody.mk (BodyMessage.str []) none⟩ true
        (FetchOutcome.response true [] (some "a reply".toList))
      = HandlerOutcome.noCall ⟨400, RespBody.errorMsg INVALID_MESSAGE⟩ := rfl

/-- C8 amended: given a POST request with the credential present, the
handler returns 400 `Invalid message` exactly when `message` is absent, not
a string, or the empty string; for every present non-empty string message,
processing continues past validation to the upstream call. -/
theorem invalid_message_exactly (bmsg : BodyMessage) (hist : Option (List HistoryTurn))
    (up : FetchOutcome) :
    (handler ⟨POST, RequestBody.mk bmsg hist⟩ true up
        = HandlerOutcome.noCall ⟨400, RespBody.errorMsg INVALID_MESSAGE⟩
      ↔ (bmsg = BodyMessage.absent ∨ bmsg = BodyMessage.nonString
          ∨ bmsg = BodyMessage.str [])) ∧
    (∀ s : Str, bmsg = BodyMessage.str s → s ≠ [] →
      (handler ⟨POST, RequestBody.mk bmsg hist⟩ true up).isCall = true) := by
  constructor
  · cases bmsg with
    | absent =>
      exact ⟨fun _ => Or.inl rfl, fun _ => rfl⟩
    | nonString =>
      exact ⟨fun _ => Or.inr (Or.inl rfl), fun _ => rfl⟩
    | str s =>
      rcases s with _ | ⟨c, t⟩
      · exact ⟨fun _ => Or.inr (Or.inr rfl), fun _ => rfl⟩
      · constructor
        · intro h
          have hc := callUpstream_isCall
            (upstreamRequestOf (c :: t) (hist.getD []))
            (detectComplexity (sanitizedOf (c :: t)) (hist.getD [])) up
          rw [show callUpstream (upstreamRequestOf (c :: t) (hist.getD []))
                (detectComplexity (sanitizedOf (c :: t)) (hist.getD [])) up
              = handler ⟨POST, RequestBody.mk (BodyMessage.str (c :: t)) hist⟩ true up
              from rfl, h] at hc
          exact Bool.noConfusion hc
        · rintro (h | h | h) <;> exact absurd h (by simp)
  · rintro s rfl hs
    rcases s with _ | ⟨c, t⟩
    · exact absurd rfl hs
    · exact callUpstream_isCall _ _ up

/-- C8 amended witness: a non-empty string message reaches the upstream
call. -/
theorem invalid_message_exactly_witness :
    (handler ⟨POST, RequestBody.mk (BodyMessage.str msgValid) none⟩ true
      FetchOutcome.fetchError).isCall = true :=
  (invalid_message_exactly (BodyMessage.str msgValid) none FetchOutcome.fetchError).2
    msgValid rfl (by decide)

/-- C4: whenever the upstream call returns a non-success status, or succeeds
with no extractable reply text, the handler returns status 500 with exactly
the body `Something went wrong. Please try again.` — for every upstream
error text, so the raw upstream error never appears in the response. -/
theorem upstream_failure_masked (req : Request) (key : Bool) (errText : Str)
    (reply : Option Str) :
    ((handler req key (FetchOutcome.response false errText reply)).isCall = true →
       (handler req key (FetchOutcome.response false errText reply)).result
         = ⟨500, RespBody.errorMsg SOMETHING_WRONG⟩) ∧
    ((handler req key (FetchOutcome.response true errText none)).isCall = true →
       (handler req key (FetchOutcome.response true errText none)).result
         = ⟨500, RespBody.errorMsg SOMETHING_WRONG⟩) := by
  constructor <;> intro hcall
  · obtain ⟨s, hs, hmsg, he⟩ := handler_call_shape _ _ _ hcall
    rw [he]
    rfl
  · obtain ⟨s, hs, hmsg, he⟩ := handler_call_shape _ _ _ hcall
    rw [he]
    rfl

/-- C4 witness: the valid request with a failing upstream, and with a
successful upstream carrying no reply, both map to the fixed 500 body. -/
theorem upstream_failure_masked_witness :
    (handler reqValid true
        (FetchOutcome.response false "upstream error body".toList none)).result
      = ⟨500, RespBody.errorMsg SOMETHING_WRONG⟩ ∧
    (handler reqValid true (FetchOutcome.response true [] none)).result
      = ⟨500, RespBody.errorMsg SOMETHING_WRONG⟩ :=
  ⟨(upstream_failure_masked reqValid true "upstream error body".toList none).1 (by rfl),
   (upstream_failure_masked reqValid true [] none).2 (by rfl)⟩

/-- C1: for every POST request with a valid message that reaches the
upstream call, the outbound message sequence is exactly one system message
carrying the fixed persona prompt, then the last 6 elements of `history`
(all of them if fewer) in original order — each mapped to role `user` when
its sender equals `user` and to role `assistant` for any other sender —
then exactly one user message whose content is the truncated input; in
particular the sequence holds exactly one system-role message. -/
theorem outbound_context_shape (s : Str) (hs : s ≠ [])
    (hist : Option (List HistoryTurn)) (up : FetchOutcome) :
    (handler ⟨POST, RequestBody.mk (BodyMessage.str s) hist⟩ true up).sentMessages
      = some (UpstreamMessage.mk Role.system SYSTEM_PROMPT ::
          ((hist.getD []).drop ((hist.getD []).length - 6)).map
            (fun m => UpstreamMessage.mk
              (if m.sender == "user".toList then Role.user else Role.assistant) m.text)
          ++ [UpstreamMessage.mk Role.user (s.take 500)]) ∧
    (∀ ms, (handler ⟨POST, RequestBody.mk (BodyMessage.str s) hist⟩ true up).sentMessages
        = some ms → (ms.countP fun m => m.role == Role.system) = 1) := by
  rcases s with _ | ⟨c, t⟩
  · exact absurd rfl hs
  · constructor
    · exact callUpstream_sentMessages (upstreamRequestOf (c :: t) (hist.getD []))
        (detectComplexity (sanitizedOf (c :: t)) (hist.getD [])) up
    · intro ms hms
      have e : (handler ⟨POST, RequestBody.mk (BodyMessage.str (c :: t)) hist⟩ true up).sentMessages
          = some ((upstreamRequestOf (c :: t) (hist.getD [])).messages) :=
        callUpstream_sentMessages _ _ up
      rw [e] at hms
      obtain rfl := Option.some.inj hms.symm
      rw [show (upstreamRequestOf (c :: t) (hist.getD [])).messages
            = UpstreamMessage.mk Role.system SYSTEM_PROMPT :: chatHistoryOf (hist.getD [])
              ++ [UpstreamMessage.mk Role.user (sanitizedOf (c :: t))] from rfl]
      rw [List.countP_append, List.countP_cons, countP_system_chatHistory]
      rfl

/-- C1 witness: with 10 prior turns of varied senders, exactly the last 6
are forwarded in order, `user` senders as role user and the senders
`assistant`, `system` and `bot` as role assistant, between the persona
prompt and the current message. -/
theorem outbound_context_shape_witness :
    (handler ⟨POST, RequestBody.mk (BodyMessage.str msgValid) (some hist10)⟩ true
        FetchOutcome.fetchError).sentMessages
      = some (UpstreamMessage.mk Role.system SYSTEM_PROMPT ::
          [UpstreamMessage.mk Role.user "five".toList,
           UpstreamMessage.mk Role.assistant "six".toList,
           UpstreamMessage.mk Role.user "seven".toList,
           UpstreamMessage.mk Role.assistant "eight".toList,
           UpstreamMessage.mk Role.user "nine".toList,
           UpstreamMessage.mk Role.assistant "ten".toList]
          ++ [UpstreamMessage.mk Role.user msgValid]) := by
  have h := (outbound_context_shape msgValid (by decide) (some hist10)
    FetchOutcome.fetchError).1
  rw [h]
  rfl

/-- C6: for every valid request, the final user message sent upstream is the
plain 500-character prefix cut of the original message: it is what `take
500` yields, has length at most 500, and is a prefix of the original. -/
theorem truncated_user_content (s : Str) (hs : s ≠ [])
    (hist : Option (List HistoryTurn)) (up : FetchOutcome) :
    ((handler ⟨POST, RequestBody.mk (BodyMessage.str s) hist⟩ true up).sentMessages).bind
        List.getLast?
      = some (UpstreamMessage.mk Role.user (s.take 500)) ∧
    (s.take 500).length ≤ 500 ∧ s.take 500 ++ s.drop 500 = s := by
  rcases s with _ | ⟨c, t⟩
  · exact absurd rfl hs
  · refine ⟨?_, ?_, List.take_append_drop 500 (c :: t)⟩
    · have e : (handler ⟨POST, RequestBody.mk (BodyMessage.str (c :: t)) hist⟩ true up).sentMessages
          = some ((upstreamRequestOf (c :: t) (hist.getD [])).messages) :=
        callUpstream_sentMessages _ _ up
      rw [e]
      show ((upstreamRequestOf (c :: t) (hist.getD [])).messages).getLast?
        = some (UpstreamMessage.mk Role.user ((c :: t).take 500))
      rw [show (upstreamRequestOf (c :: t) (hist.getD [])).messages
            = (UpstreamMessage.mk Role.system SYSTEM_PROMPT :: chatHistoryOf (hist.getD []))
              ++ [UpstreamMessage.mk Role.user ((c :: t).take 500)] from rfl]
      exact List.getLast?_concat _
    · exact List.length_take_le 500 (c :: t)

set_option maxRecDepth 4000 in
/-- C6 witness: a message of 600 characters produces an upstream user
content of exactly its first 500 characters. -/
theorem truncated_user_content_witness :
    ((handler ⟨POST, RequestBody.mk (BodyMessage.str msg600) none⟩ true
        FetchOutcome.fetchError).sentMessages).bind List.getLast?
      = some (UpstreamMessage.mk Role.user (List.replicate 500 'a')) := by
  have h := (truncated_user_content msg600 (by decide) none
    FetchOutcome.fetchError).1
  rw [h]
  decide

/-- C9: the classifier of src/api/chat.js and the classifier of
src/unnamed/part_000 are extensionally equal: on every message and history
both return the same tier. -/
theorem detectComplexity_copies_equal (message : Str) (history : List HistoryTurn) :
    detectComplexity message history = V2.detectComplexity message history := rfl

/-- C10: the model table maps all three tiers to `x-ai/grok-4.1-fast`, so
every issued upstream request carries that model and every 200 response
reports it, independently of the computed tier: the routing selects no
distinct model. -/
theorem model_routing_constant :
    (∀ t : Tier, MODELS t = "x-ai/grok-4.1-fast".toList) ∧
    (∀ (req : Request) (key : Bool) (up : FetchOutcome),
       (handler req key up).isCall = true →
         (handler req key up).sentModel = some ("x-ai/grok-4.1-fast".toList)) ∧
    (∀ (req : Request) (key : Bool) (up : FetchOutcome) (q : UpstreamRequest)
       (rep m : Str) (c : Tier),
       handler req key up = HandlerOutcome.call q (HttpResult.mk 200 (RespBody.success rep m c)) →
         m = "x-ai/grok-4.1-fast".toList) := by
  refine ⟨models_all_eq, ?_, ?_⟩
  · intro req key up h
    obtain ⟨s, hs, hmsg, he⟩ := handler_call_shape req key up h
    rw [he, callUpstream_sentModel]
    rw [show (upstreamRequestOf s (req.body.history.getD [])).model
          = MODELS (detectComplexity (sanitizedOf s) (req.body.history.getD [])) from rfl]
    rw [models_all_eq]
  · intro req key up q rep m c heq
    have h : (handler req key up).isCall = true := by rw [heq]; rfl
    obtain ⟨s, hs, hmsg, he⟩ := handler_call_shape req key up h
    rw [he] at heq
    obtain ⟨hm, -, -⟩ := callUpstream_success _ _ _ _ _ _ _ heq
    rw [hm]
    rw [show (upstreamRequestOf s (req.body.history.getD [])).model
          = MODELS (detectComplexity (sanitizedOf s) (req.body.history.getD [])) from rfl]
    rw [models_all_eq]

/-- C10 witness: a successful request sends and reports the fixed model. -/
theorem model_routing_constant_witness :
    (handler reqValid true (FetchOutcome.response true []
        (some "a reply".toList))).sentModel
      = some ("x-ai/grok-4.1-fast".toList) :=
  model_routing_constant.2.1 reqValid true
    (FetchOutcome.response true [] (some "a reply".toList)) (by rfl)
